import Mathlib

/-!
Shallow embedding of the DORA metrics engine of the changelog-notifier
repository (src/metrics.js and src/detectors.js, with the task-id pattern
from src/parsing.js), together with theorems settling the frozen claims.

Conventions of the embedding:
* JavaScript strings are Lean `String`s over their character lists; the
  regex character class `\s` is modelled by the six ASCII whitespace
  characters JavaScript recognises (space, tab, LF, VT, FF, CR).
* Instants are integers (milliseconds since epoch, as in a JS `Date`);
  durations in seconds are rationals (`(t1 - t0) / 1000`).
* A JS number that may be `NaN` is modelled as `Option ℚ` (`none` = NaN);
  `NaN < 0`, `NaN > c` and `NaN <= 0` are all `false`, and arithmetic on
  NaN propagates it, exactly as in JavaScript.
* The external lookups (GitHub pull-request API, YouGile task API) are
  parameters of the functions that the source performs them in; a caught
  API error is the same as a `null` result, as in the source.
* The system clock is a function `ℕ → ℤ` giving the value of each
  successive read: read 0 is the `Date.now()` in `recordAndPushMetrics`,
  read 1 the `new Date()` in `calculateLeadTimes`, read 2 the one in
  `calculateCycleTimes`, read 3 the one in `calculateMTTR` (a read that a
  disabled calculator never performs is simply ignored).
-/

/-! Character classes used by the detector regexes -/

/-- ASCII whitespace as matched by the JavaScript regex class backslash-s. -/
def jsWhitespace (c : Char) : Bool :=
  c = ' ' || c = '\t' || c = '\n' || c = '\r' || c = Char.ofNat 11 || c = Char.ofNat 12

/-- Word characters of the JavaScript regex class backslash-w,
used by word boundaries. -/
def wordChar (c : Char) : Bool :=
  c.isUpper || c.isLower || c.isDigit || c = '_'

/-- Case-insensitive matching of a literal pattern at the head of the input;
returns the rest of the input on success. -/
def ciStrip : List Char → List Char → Option (List Char)
  | [], cs => some cs
  | _ :: _, [] => none
  | p :: ps, c :: cs => if c.toLower = p.toLower then ciStrip ps cs else none

/-- A word boundary holds before a word character iff the previous character
(if any) is not a word character. -/
def boundaryBefore : Option Char → Bool
  | none => true
  | some c => !wordChar c

/-- A word boundary holds after a word character iff the next character
(if any) is not a word character. -/
def boundaryAfter : List Char → Bool
  | [] => true
  | c :: _ => !wordChar c

/-- Runs a position matcher at every position of the input, tracking the
previous character for word-boundary tests (regex search semantics). -/
def searchFrom (p : Option Char → List Char → Bool) : Option Char → List Char → Bool
  | prev, [] => p prev []
  | prev, c :: cs => p prev (c :: cs) || searchFrom p (some c) cs

/-! Incident classifier (src/detectors.js) -/

/-- First regex of isRevertCommit: case-insensitive "revert" at the start,
followed by an opening parenthesis, a colon, or whitespace. -/
def revertHeadMatch (cs : List Char) : Bool :=
  match ciStrip ['r', 'e', 'v', 'e', 'r', 't'] cs with
  | some (c :: _) => c = '(' || c = ':' || jsWhitespace c
  | _ => false

/-- Second regex of isRevertCommit: literal "Revert" at the start, then one
or more whitespace characters, then a double quote (the whitespace run is
greedy, which agrees with the regex because a quote is not whitespace). -/
def revertQuoteMatch : List Char → Bool
  | 'R' :: 'e' :: 'v' :: 'e' :: 'r' :: 't' :: c :: rest =>
    jsWhitespace c &&
      (match (c :: rest).dropWhile jsWhitespace with
       | '"' :: _ => true
       | _ => false)
  | _ => false

/-- Third regex of isRevertCommit at one position: word boundary,
case-insensitive "revert", whitespace, case-insensitive "commit",
word boundary. -/
def revertCommitAt (prev : Option Char) (cs : List Char) : Bool :=
  boundaryBefore prev &&
    (match ciStrip ['r', 'e', 'v', 'e', 'r', 't'] cs with
     | some (c :: rest) =>
       jsWhitespace c &&
         (match ciStrip ['c', 'o', 'm', 'm', 'i', 't'] ((c :: rest).dropWhile jsWhitespace) with
          | some rest2 => boundaryAfter rest2
          | none => false)
     | _ => false)

/-- Fourth regex of isRevertCommit at one position: the word "rollback"
between word boundaries, case-insensitive. -/
def rollbackAt (prev : Option Char) (cs : List Char) : Bool :=
  boundaryBefore prev &&
    (match ciStrip ['r', 'o', 'l', 'l', 'b', 'a', 'c', 'k'] cs with
     | some rest => boundaryAfter rest
     | none => false)

/-- Detects if a commit message indicates a revert (src/detectors.js).
The argument is `none` for a JS null/undefined message; the falsy guard of
the source also rejects the empty string. -/
def isRevertCommit : Option String → Bool
  | none => false
  | some m =>
    if m = "" then false
    else
      revertHeadMatch m.data || revertQuoteMatch m.data ||
        searchFrom revertCommitAt none m.data || searchFrom rollbackAt none m.data

/-- Does the character list contain the pattern as a contiguous run? -/
def containsSeq (pat : List Char) : List Char → Bool
  | [] => pat.isEmpty
  | c :: cs => pat.isPrefixOf (c :: cs) || containsSeq pat cs

/-- Detects if a deployment ref is a hotfix-style branch (src/detectors.js). -/
def isHotfixDeployment (ref : String) : Bool :=
  if ref = "" then false
  else
    ["hotfix/", "hotfix-", "fix-", "fix/", "emergency/"].any
      (fun p => containsSeq p.data ref.data)

/-- Extracts the incident type from a commit message or ref
(src/detectors.js): revert takes priority over hotfix. -/
def extractIncidentType (message : Option String) (ref : String) : Option String :=
  if isRevertCommit message then some "revert"
  else if isHotfixDeployment ref then some "hotfix"
  else none

/-! Task-id pattern (src/parsing.js, used by src/metrics.js) -/

/-- Matches the task-id regex (uppercase letters, a dash, digits) at the
head of the input, returning the captured id. A shorter take of the
uppercase run would leave an uppercase letter where the dash must be, so
the greedy run is the only candidate, as in the regex. -/
def taskAt (cs : List Char) : Option String :=
  let u := cs.takeWhile Char.isUpper
  if u.isEmpty then none
  else
    match cs.dropWhile Char.isUpper with
    | '-' :: rest =>
      let d := rest.takeWhile Char.isDigit
      if d.isEmpty then none else some (String.mk (u ++ '-' :: d))
    | _ => none

/-- First match of the task-id regex anywhere in the input. -/
def scanTask : List Char → Option String
  | [] => none
  | c :: cs =>
    match taskAt (c :: cs) with
    | some t => some t
    | none => scanTask cs

/-- Check if a message contains a task id (src/parsing.js hasTaskId). -/
def hasTaskId (m : String) : Bool :=
  if m = "" then false else (scanTask m.data).isSome

/-! InfluxDB line protocol encoder (src/metrics.js) -/

/-- A typed field value of the line protocol. An ordinary JS number is a
rational carried by num; nan is the JS NaN; booleans and strings as in JS. -/
inductive FieldValue where
  | num (q : ℚ)
  | nan
  | boolVal (b : Bool)
  | strVal (s : String)
  deriving DecidableEq

/-- Escape commas, equals signs and spaces with a preceding backslash
(src/metrics.js escapeTag). -/
def escapeTag (s : String) : String :=
  String.mk (s.data.foldr
    (fun c acc => if c = ',' || c = '=' || c = ' ' then '\\' :: c :: acc else c :: acc) [])

/-- Smallest exponent k with 10 to the k divisible by d, when one exists
below 40; this exists for every denominator a JS number can have. -/
def pow10Exp (d : ℕ) : Option ℕ :=
  (List.range 40).find? (fun k => 10 ^ k % d = 0)

/-- Decimal rendering of a non-integral rational, as JS renders a
terminating floating-point decimal. -/
def decimalRepr (q : ℚ) : String :=
  let sign := if q < 0 then "-" else ""
  let n := q.num.natAbs
  let d := q.den
  match pow10Exp d with
  | some k =>
    let m := n * (10 ^ k / d)
    let ip := m / 10 ^ k
    let fp := m % 10 ^ k
    let fpStr := toString fp
    let pad := String.mk (List.replicate (k - fpStr.length) '0')
    sign ++ toString ip ++ "." ++ pad ++ fpStr
  | none => sign ++ toString n ++ "/" ++ toString d

/-- Format a field value (src/metrics.js formatFieldValue): integers get an
i suffix, other numbers their decimal representation, booleans the literals
true and false, strings double quotes with inner quotes escaped. -/
def formatFieldValue : FieldValue → String
  | FieldValue.num q => if q.den = 1 then toString q.num ++ "i" else decimalRepr q
  | FieldValue.nan => "NaN"
  | FieldValue.boolVal b => if b then "true" else "false"
  | FieldValue.strVal s =>
    "\"" ++ String.mk (s.data.foldr
      (fun c acc => if c = '"' then '\\' :: c :: acc else c :: acc) []) ++ "\""

/-- Create an InfluxDB line protocol string (src/metrics.js
createLineProtocol). Tag and field maps are ordered association lists, as
JS object entries are ordered by insertion. -/
def createLineProtocol (measurement : String) (tags : List (String × String))
    (fields : List (String × FieldValue)) (timestamp : ℤ) : String :=
  let tagStr := String.intercalate ","
    (tags.map (fun kv => escapeTag kv.1 ++ "=" ++ escapeTag kv.2))
  let fieldStr := String.intercalate ","
    (fields.map (fun kv => escapeTag kv.1 ++ "=" ++ formatFieldValue kv.2))
  measurement ++ "," ++ tagStr ++ " " ++ fieldStr ++ " " ++ toString timestamp

/-! Outlier ceilings and retry constants (src/metrics.js) -/

/-- Lead time outlier ceiling in days. -/
def MAX_LEAD_TIME_DAYS : ℕ := 30

/-- Cycle time outlier ceiling in days. -/
def MAX_CYCLE_TIME_DAYS : ℕ := 180

/-- Fixed number of delivery attempts. -/
def RETRY_ATTEMPTS : ℕ := 3

/-- Base delay in milliseconds between delivery attempts. -/
def RETRY_DELAY_MS : ℕ := 1000

/-- Lead time ceiling in seconds. -/
def maxLeadTimeSeconds : ℚ := ((MAX_LEAD_TIME_DAYS * 24 * 60 * 60 : ℕ) : ℚ)

/-- Cycle time ceiling in seconds. -/
def maxCycleTimeSeconds : ℚ := ((MAX_CYCLE_TIME_DAYS * 24 * 60 * 60 : ℕ) : ℚ)

/-! JS numbers with NaN -/

/-- A JavaScript number that may be NaN: `none` is NaN. -/
abbrev JSNum := Option ℚ

/-- JS comparison value < 0: false on NaN. -/
def jsLtZero : JSNum → Bool
  | none => false
  | some q => decide (q < 0)

/-- JS comparison value <= 0: false on NaN. -/
def jsLeZero : JSNum → Bool
  | none => false
  | some q => decide (q ≤ 0)

/-- JS comparison value > bound: false on NaN. -/
def jsGtB (x : JSNum) (b : ℚ) : Bool :=
  match x with
  | none => false
  | some q => decide (b < q)

/-- JS addition: NaN propagates. -/
def jsAdd : JSNum → JSNum → JSNum
  | some a, some b => some (a + b)
  | _, _ => none

/-- JS two-argument Math.min: NaN propagates. -/
def jsMin2 : JSNum → JSNum → JSNum
  | some a, some b => some (min a b)
  | _, _ => none

/-- The reduce((a, b) => a + b, 0) of the source. -/
def jsSum (xs : List JSNum) : JSNum := xs.foldl jsAdd (some 0)

/-- Mean of a list of JS numbers (sum divided by length); only meaningful
for non-empty lists, which is verified by the callers before the division. -/
def jsMean (xs : List JSNum) : JSNum :=
  match jsSum xs with
  | none => none
  | some s => some (s / (xs.length : ℚ))

/-- Math.min spread over a non-empty array of JS numbers. -/
def jsMinList : List JSNum → JSNum
  | [] => none
  | x :: xs => xs.foldl jsMin2 x

/-- The numeric value of a JS Date built from a stored timestamp: NaN when
the field was absent or unparseable. -/
def jsDateOfTs : Option ℤ → JSNum
  | some t => some ((t : ℚ))
  | none => none

/-! Data model -/

/-- A commit record as the engine consumes it. The timestamp is the parsed
instant in milliseconds; `none` models an absent or unparseable timestamp
field, i.e. an Invalid Date whose numeric value is NaN. -/
structure Commit where
  message : String
  timestamp : Option ℤ
  sha : Option String := none
  deriving DecidableEq

/-- A pull request as relevant to the engine. -/
structure PRInfo where
  number : ℕ
  deriving DecidableEq

/-- The GitHub lookups performed per commit by calculateLeadTimes; caught
API errors behave as a `none` result, as in the source. -/
structure LeadEnv where
  getPRInfo : Option String → Option PRInfo
  getFirstCommitTime : PRInfo → Option ℤ

/-- A tracker task; `created` is the creation instant resolved from the
fallback chain of synonymous fields, `none` when every candidate is absent
or unparseable (the isNaN check of the source). -/
structure TrackerTask where
  created : Option ℤ
  deriving DecidableEq

/-! Interval calculators (src/metrics.js) -/

/-- Start-of-work instant resolution of calculateLeadTimes for one commit:
the first commit time of the associated pull request when both lookups
succeed, otherwise the commit's own timestamp. -/
def resolveStartTime (env : LeadEnv) (c : Commit) : Option ℤ :=
  match env.getPRInfo c.sha with
  | some pr =>
    match env.getFirstCommitTime pr with
    | some t => some t
    | none => c.timestamp
  | none => c.timestamp

/-- The per-commit body of the lead time loop. Returns `none` when the
iteration pushes nothing (the negative-value skip) and `some v` when it
pushes the value `v` (which is NaN when the start instant was NaN, since
NaN fails both guards in the source). -/
def leadTimeSample (env : LeadEnv) (deploymentTime : ℤ) (c : Commit) : Option JSNum :=
  let leadTimeSeconds : JSNum :=
    match resolveStartTime env c with
    | some t => some ((((deploymentTime - t : ℤ)) : ℚ) / 1000)
    | none => none
  if jsLtZero leadTimeSeconds then none
  else if jsGtB leadTimeSeconds maxLeadTimeSeconds then some (some maxLeadTimeSeconds)
  else some leadTimeSeconds

/-- Calculate the mean lead time (src/metrics.js calculateLeadTimes). The
boolean says whether a GitHub token was supplied; without one the function
returns null before reading the clock. -/
def calculateLeadTimes (env : LeadEnv) (githubToken : Bool) (deploymentTime : ℤ)
    (commits : List Commit) : Option JSNum :=
  if !githubToken then none
  else
    let validLeadTimes := commits.filterMap (leadTimeSample env deploymentTime)
    if validLeadTimes.isEmpty then none
    else some (jsMean validLeadTimes)

/-- The per-commit body of the cycle time loop. Commits without a task id,
unknown tasks and tasks with an invalid creation timestamp are skipped; a
negative value is skipped; a value over the ceiling is clamped. After the
isNaN guard of the source the value is a real number, never NaN. -/
def cycleTimeSample (getTask : String → Option TrackerTask) (deploymentTime : ℤ)
    (c : Commit) : Option ℚ :=
  match scanTask c.message.data with
  | none => none
  | some taskId =>
    match getTask taskId with
    | none => none
    | some task =>
      match task.created with
      | none => none
      | some t0 =>
        let cycleTimeSeconds : ℚ := (((deploymentTime - t0 : ℤ)) : ℚ) / 1000
        if cycleTimeSeconds < 0 then none
        else if cycleTimeSeconds > maxCycleTimeSeconds then some maxCycleTimeSeconds
        else some cycleTimeSeconds

/-- Calculate the mean cycle time (src/metrics.js calculateCycleTimes);
null when no tracker instance is supplied or no valid sample exists. -/
def calculateCycleTimes (yogileInstance : Option (String → Option TrackerTask))
    (deploymentTime : ℤ) (commits : List Commit) : Option ℚ :=
  match yogileInstance with
  | none => none
  | some getTask =>
    let validCycleTimes := commits.filterMap (cycleTimeSample getTask deploymentTime)
    if validCycleTimes.isEmpty then none
    else some (validCycleTimes.sum / (validCycleTimes.length : ℚ))

/-- Calculate the recovery time of this deployment (src/metrics.js
calculateMTTR). On an empty commit list Math.min of no arguments is
positive infinity, making the recovery time non-positive, hence null; a
NaN timestamp among the commits makes the minimum NaN, and NaN fails the
non-positivity guard, so a NaN recovery time is returned for an
incident-bearing deployment. -/
def calculateMTTR (deploymentTime : ℤ) (commits : List Commit) (ref : String) : Option JSNum :=
  match commits with
  | [] => none
  | _ :: _ =>
    let commitTimes : List JSNum := commits.map (fun c => jsDateOfTs c.timestamp)
    let incidentStart : JSNum := jsMinList commitTimes
    let recoveryTimeSeconds : JSNum :=
      match incidentStart with
      | some t0 => some (((deploymentTime : ℚ) - t0) / 1000)
      | none => none
    if jsLeZero recoveryTimeSeconds then none
    else if commits.any (fun c => extractIncidentType (some c.message) ref = some "revert") then
      some recoveryTimeSeconds
    else if extractIncidentType (some "") ref = some "hotfix" then
      some recoveryTimeSeconds
    else none

/-- Detect revert commits or a hotfix deployment (src/metrics.js
detectFailures). -/
def detectFailures (commits : List Commit) (ref : String) : Bool :=
  commits.any (fun c => isRevertCommit (some c.message)) || isHotfixDeployment ref

/-! Orchestrator (src/metrics.js recordAndPushMetrics) -/

/-- The configuration of one invocation; the token is a boolean since only
its presence matters to the control flow, and the tracker instance is its
task lookup. -/
structure MetricsConfig where
  commits : List Commit
  ref : String
  projectName : String
  repository : String
  environment : String := "production"
  githubToken : Bool := false
  yogileInstance : Option (String → Option TrackerTask) := none
  leadEnv : LeadEnv

/-- The common tag set built once per invocation. -/
def commonTags (cfg : MetricsConfig) : List (String × String) :=
  let hasTask := cfg.commits.any (fun c => hasTaskId c.message)
  [("project", cfg.projectName), ("repository", cfg.repository),
   ("environment", cfg.environment), ("has_task", if hasTask then "yes" else "no")]

/-- The incident type tag of the mttr metric, as computed at the call site
in recordAndPushMetrics. -/
def incidentTypeTag (commits : List Commit) (ref : String) : String :=
  if commits.any (fun c => extractIncidentType (some c.message) ref = some "revert") then "revert"
  else if extractIncidentType (some "") ref = some "hotfix" then "hotfix"
  else "unknown"

/-- A mean that may be NaN, as a field value. -/
def jsNumToField : JSNum → FieldValue
  | none => FieldValue.nan
  | some q => FieldValue.num q

/-- The compute phase of recordAndPushMetrics: `none` when the early
return on an empty commit list fires and nothing is pushed, otherwise the
list of line protocol strings handed to the delivery channel (it always
contains the deployment marker, so the non-emptiness test before the push
always passes). The clock reads are numbered as described at the top of
the file. -/
def recordAndPushMetrics (clock : ℕ → ℤ) (cfg : MetricsConfig) : Option (List String) :=
  if cfg.commits.isEmpty then none
  else
    let timestamp : ℤ := clock 0 * 1000000
    let tags := commonTags cfg
    let deploymentMetric := createLineProtocol "deployment" tags [("count", FieldValue.num 1)] timestamp
    let leadMetrics :=
      match calculateLeadTimes cfg.leadEnv cfg.githubToken (clock 1) cfg.commits with
      | some v => [createLineProtocol "lead_time" tags [("seconds", jsNumToField v)] timestamp]
      | none => []
    let cycleMetrics :=
      match calculateCycleTimes cfg.yogileInstance (clock 2) cfg.commits with
      | some v => [createLineProtocol "cycle_time" tags [("seconds", FieldValue.num v)] timestamp]
      | none => []
    let failureMetrics :=
      if detectFailures cfg.commits cfg.ref then
        [createLineProtocol "deployment_failure" tags [("count", FieldValue.num 1)] timestamp]
      else []
    let mttrMetrics :=
      match calculateMTTR (clock 3) cfg.commits cfg.ref with
      | some v =>
        [createLineProtocol "mttr" (tags ++ [("incident_type", incidentTypeTag cfg.commits cfg.ref)])
          [("seconds", jsNumToField v)] timestamp]
      | none => []
    some (deploymentMetric :: (leadMetrics ++ cycleMetrics ++ failureMetrics ++ mttrMetrics))

/-! Delivery channel with retry (src/metrics.js pushWithRetry) -/

/-- Observable trace of one pushWithRetry run: the overall outcome, how
many push attempts were made, and the waits (in milliseconds) between
consecutive attempts. -/
structure RetryTrace where
  result : Except String Unit
  attempts : ℕ
  delays : List ℕ

/-- The retry loop body; `push n` is the outcome of the n-th HTTP attempt.
The fuel is the number of loop iterations left, which the source bounds by
maxRetries; on attempt maxRetries a failure throws the aggregated error. -/
def retryLoop (push : ℕ → Except String Unit) (maxRetries : ℕ) : ℕ → ℕ → RetryTrace
  | 0, _ => ⟨Except.ok (), 0, []⟩
  | fuel + 1, attempt =>
    match push attempt with
    | Except.ok () => ⟨Except.ok (), 1, []⟩
    | Except.error e =>
      if attempt = maxRetries then
        ⟨Except.error ("Failed to push metrics after " ++ toString maxRetries ++ " attempts: " ++ e), 1, []⟩
      else
        let rest := retryLoop push maxRetries fuel (attempt + 1)
        ⟨rest.result, rest.attempts + 1, RETRY_DELAY_MS * attempt :: rest.delays⟩

/-- Push with retry (src/metrics.js pushWithRetry): attempts numbered from
1 up to maxRetries. -/
def pushWithRetry (push : ℕ → Except String Unit) (maxRetries : ℕ) : RetryTrace :=
  retryLoop push maxRetries maxRetries 1

/-! The revert classifier as the specification words it -/

/-- Revert classifier following the specification text for the refinement
comparison: starts with case-insensitive "revert" followed by an opening
parenthesis, a colon, or whitespace; OR starts with the literal pattern
Revert-space-quote; OR contains the word-boundaried phrase "revert commit"
(case-insensitive, with whitespace between the words); OR contains the
word-boundaried word "rollback" (case-insensitive); null or empty yields
false. The second clause reads the literal text of the spec, where the
source regex allows any whitespace run before the quote; the comparison
theorem shows the two classifiers agree on every message. -/
def spec_isRevertCommit (m : String) : Bool :=
  if m = "" then false
  else
    revertHeadMatch m.data || "Revert \"".data.isPrefixOf m.data ||
      searchFrom revertCommitAt none m.data || searchFrom rollbackAt none m.data

/-! Concrete inputs used by witnesses and counterexamples -/

/-- A lookup environment in which no commit has an associated pull request. -/
def noPREnv : LeadEnv := ⟨fun _ => none, fun _ => none⟩

/-- A plain commit at instant zero. -/
def commitZero : Commit := ⟨"feat: x", some 0, none⟩

/-- A commit whose timestamp field is absent. -/
def commitNoTs : Commit := ⟨"feat: x", none, none⟩

/-- A rollback commit at instant zero. -/
def commitRollback : Commit := ⟨"rollback everything", some 0, none⟩

/-- A rollback commit whose timestamp field is absent. -/
def commitRollbackNoTs : Commit := ⟨"rollback everything", none, none⟩

/-- A revert commit at instant zero. -/
def commitRevert : Commit := ⟨"Revert \"feat: bad\"", some 0, none⟩

/-- A push that fails on the first two attempts and succeeds on the third. -/
def pushThirdOk (n : ℕ) : Except String Unit :=
  if n = 3 then Except.ok () else Except.error "boom"

/-- A configuration with a single rollback commit, a GitHub token and no
tracker instance. -/
def cfgRevert : MetricsConfig :=
  ⟨[commitRollback], "refs/heads/main", "p", "r", "production", true, none, noPREnv⟩

/-- A configuration whose single commit lacks a timestamp. -/
def cfgNoTs : MetricsConfig :=
  ⟨[commitNoTs], "refs/heads/main", "p", "r", "production", true, none, noPREnv⟩

/-- A configuration with no commits at all. -/
def cfgEmpty : MetricsConfig :=
  ⟨[], "refs/heads/main", "p", "r", "production", false, none, noPREnv⟩

/-- A clock whose reads advance by 1000 seconds per read. -/
def tickingClock (n : ℕ) : ℤ := (n : ℤ) * 1000000

/-- A configuration with a single rollback commit and neither token nor
tracker. -/
def cfgRevertNoTok : MetricsConfig :=
  ⟨[commitRollback], "refs/heads/main", "p", "r", "production", false, none, noPREnv⟩

/-- The payload of cfgNoTs under the constant-zero clock. -/
def outNoTs : List String := (recordAndPushMetrics (fun _ => 0) cfgNoTs).getD []

/-! Theorems -/

/-- C10: with an empty tag map createLineProtocol still emits the comma
after the measurement name, giving the shape measurement-comma-space-
fields-space-timestamp; the encoder validates nothing. -/
theorem C10_empty_tag_section :
    (∀ (measurement : String) (fields : List (String × FieldValue)) (timestamp : ℤ),
      createLineProtocol measurement [] fields timestamp =
        measurement ++ "," ++ " " ++
          String.intercalate ","
            (fields.map (fun kv => escapeTag kv.1 ++ "=" ++ formatFieldValue kv.2)) ++
          " " ++ toString timestamp) ∧
    createLineProtocol "deployment" [] [("count", FieldValue.num 1)] 123 =
      "deployment, count=1i 123" := by
  constructor
  · intro m f ts
    simp only [createLineProtocol, List.map_nil]
    rw [show String.intercalate "," ([] : List String) = "" from rfl, String.append_empty]
  · rfl

/-- C4: the line protocol encoder escapes exactly commas, equals signs and
spaces with a preceding backslash; integer field values get an i suffix,
non-integral numbers their decimal representation with no suffix, booleans
the literals, strings double quotes with inner quotes escaped; and the
documented round-trip example encodes exactly as stated. -/
theorem C4_encoding :
    (∀ c : Char, escapeTag (String.mk [c]) =
        if c = ',' ∨ c = '=' ∨ c = ' ' then String.mk ['\\', c] else String.mk [c]) ∧
    escapeTag "my project" = "my\\ project" ∧
    escapeTag "a=b,c" = "a\\=b\\,c" ∧
    (∀ n : ℤ, formatFieldValue (FieldValue.num (n : ℚ)) = toString n ++ "i") ∧
    formatFieldValue (FieldValue.num (7 / 2 : ℚ)) = "3.5" ∧
    (∀ b : Bool, formatFieldValue (FieldValue.boolVal b) = if b then "true" else "false") ∧
    formatFieldValue (FieldValue.strVal "say \"hi\"") = "\"say \\\"hi\\\"\"" ∧
    createLineProtocol "deployment" [("project", "p"), ("environment", "prod")]
        [("count", FieldValue.num 1)] 1234567890000000000 =
      "deployment,project=p,environment=prod count=1i 1234567890000000000" := by
  refine ⟨?_, by decide, by decide, ?_, ?_, ?_, by decide, by decide⟩
  · intro c
    by_cases h : c = ',' ∨ c = '=' ∨ c = ' '
    · rw [if_pos h]
      rcases h with h | h | h <;> subst h <;> rfl
    · rw [if_neg h]
      push_neg at h
      obtain ⟨h1, h2, h3⟩ := h
      simp [escapeTag, h1, h2, h3]
  · intro n
    simp [formatFieldValue, Rat.den_intCast, Rat.num_intCast]
  · have hden : (7 / 2 : ℚ).den = 2 := by norm_num
    have hnum : (7 / 2 : ℚ).num = 7 := by norm_num
    have hneg : ¬((7 / 2 : ℚ) < 0) := by norm_num
    simp only [formatFieldValue, hden, decimalRepr, hnum, if_neg hneg]
    decide
  · intro b
    cases b <;> rfl

/-- C6: both aggregators return the arithmetic mean of the valid samples
and return null on an empty sample set (absence, not zero); the mean of one
day and three days in seconds is two days. -/
theorem C6_mean_aggregation :
    (∀ (env : LeadEnv) (now : ℤ) (commits : List Commit),
        commits.filterMap (leadTimeSample env now) = [] →
        calculateLeadTimes env true now commits = none) ∧
    (∀ (env : LeadEnv) (now : ℤ) (commits : List Commit) (l : List JSNum),
        commits.filterMap (leadTimeSample env now) = l → l ≠ [] →
        calculateLeadTimes env true now commits = some (jsMean l)) ∧
    (∀ (getTask : String → Option TrackerTask) (now : ℤ) (commits : List Commit),
        commits.filterMap (cycleTimeSample getTask now) = [] →
        calculateCycleTimes (some getTask) now commits = none) ∧
    (∀ (getTask : String → Option TrackerTask) (now : ℤ) (commits : List Commit) (l : List ℚ),
        commits.filterMap (cycleTimeSample getTask now) = l → l ≠ [] →
        calculateCycleTimes (some getTask) now commits = some (l.sum / (l.length : ℚ))) ∧
    jsMean [some 86400, some 259200] = some 172800 := by
  refine ⟨?_, ?_, ?_, ?_, by norm_num [jsMean, jsSum, jsAdd]⟩
  · intro env now commits h
    simp [calculateLeadTimes, h]
  · intro env now commits l h hne
    simp [calculateLeadTimes, h, List.isEmpty_eq_false.mpr hne]
  · intro getTask now commits h
    simp [calculateCycleTimes, h]
  · intro getTask now commits l h hne
    simp [calculateCycleTimes, h, List.isEmpty_eq_false.mpr hne]

/-- C6 witness: the empty-sample case of the lead time aggregator applied
to a concrete empty commit list. -/
theorem C6_witness : calculateLeadTimes noPREnv true 0 [] = none :=
  C6_mean_aggregation.1 noPREnv 0 [] rfl

/-- Helper: a successful attempt ends the loop at once. -/
theorem retryLoop_ok (push : ℕ → Except String Unit) (mr fuel a : ℕ)
    (h : push a = Except.ok ()) :
    retryLoop push mr (fuel + 1) a = ⟨Except.ok (), 1, []⟩ := by
  simp only [retryLoop]
  rw [h]

/-- Helper: a failure before the last attempt waits and retries. -/
theorem retryLoop_step (push : ℕ → Except String Unit) (mr fuel a : ℕ) (e : String)
    (hne : a ≠ mr) (h : push a = Except.error e) :
    retryLoop push mr (fuel + 1) a =
      ⟨(retryLoop push mr fuel (a + 1)).result,
       (retryLoop push mr fuel (a + 1)).attempts + 1,
       RETRY_DELAY_MS * a :: (retryLoop push mr fuel (a + 1)).delays⟩ := by
  simp only [retryLoop]
  rw [h]
  simp [hne]

/-- Helper: a failure on the last attempt throws the aggregated error. -/
theorem retryLoop_throw (push : ℕ → Except String Unit) (mr fuel : ℕ) (e : String)
    (h : push mr = Except.error e) :
    retryLoop push mr (fuel + 1) mr =
      ⟨Except.error ("Failed to push metrics after " ++ toString mr ++ " attempts: " ++ e),
       1, []⟩ := by
  simp only [retryLoop]
  rw [h]
  simp

/-- C5: with the configured three attempts, pushWithRetry makes at most
three sequential attempts; success returns immediately; a failure at
attempt n below three is followed by a wait of exactly 1000 times n
milliseconds; three failures raise one aggregated error naming the last
underlying error, after waits of 1000 and 2000 milliseconds. -/
theorem C5_retry_behaviour :
    (∀ push : ℕ → Except String Unit, (pushWithRetry push RETRY_ATTEMPTS).attempts ≤ 3) ∧
    (∀ push : ℕ → Except String Unit, push 1 = Except.ok () →
        pushWithRetry push RETRY_ATTEMPTS = ⟨Except.ok (), 1, []⟩) ∧
    (∀ (push : ℕ → Except String Unit) (e1 : String),
        push 1 = Except.error e1 → push 2 = Except.ok () →
        pushWithRetry push RETRY_ATTEMPTS = ⟨Except.ok (), 2, [1000]⟩) ∧
    (∀ (push : ℕ → Except String Unit) (e1 e2 : String),
        push 1 = Except.error e1 → push 2 = Except.error e2 → push 3 = Except.ok () →
        pushWithRetry push RETRY_ATTEMPTS = ⟨Except.ok (), 3, [1000, 2000]⟩) ∧
    (∀ (push : ℕ → Except String Unit) (e1 e2 e3 : String),
        push 1 = Except.error e1 → push 2 = Except.error e2 → push 3 = Except.error e3 →
        pushWithRetry push RETRY_ATTEMPTS =
          ⟨Except.error ("Failed to push metrics after 3 attempts: " ++ e3), 3, [1000, 2000]⟩) := by
  have hunf : ∀ push : ℕ → Except String Unit,
      pushWithRetry push RETRY_ATTEMPTS = retryLoop push 3 (2 + 1) 1 := fun _ => rfl
  have hstr : ∀ e3 : String,
      "Failed to push metrics after " ++ toString (3 : ℕ) ++ " attempts: " ++ e3 =
        "Failed to push metrics after 3 attempts: " ++ e3 := by
    intro e3
    exact congrArg (fun s => s ++ e3) (by decide)
  refine ⟨?_, ?_, ?_, ?_, ?_⟩
  · intro push
    rw [hunf]
    rcases h1 : push 1 with e1 | u
    · rw [retryLoop_step push 3 2 1 e1 (by decide) h1]
      rcases h2 : push 2 with e2 | u
      · rw [show retryLoop push 3 2 2 =
            ⟨(retryLoop push 3 1 3).result, (retryLoop push 3 1 3).attempts + 1,
             RETRY_DELAY_MS * 2 :: (retryLoop push 3 1 3).delays⟩
            from retryLoop_step push 3 1 2 e2 (by decide) h2]
        rcases h3 : push 3 with e3 | u
        · rw [show retryLoop push 3 1 3 =
              ⟨Except.error ("Failed to push metrics after " ++ toString (3 : ℕ) ++ " attempts: " ++ e3), 1, []⟩
              from retryLoop_throw push 3 0 e3 h3]
        · cases u
          rw [show retryLoop push 3 1 3 = ⟨Except.ok (), 1, []⟩ from retryLoop_ok push 3 0 3 h3]
      · cases u
        rw [show retryLoop push 3 2 2 = ⟨Except.ok (), 1, []⟩ from retryLoop_ok push 3 1 2 h2]
        decide
    · cases u
      rw [retryLoop_ok push 3 2 1 h1]
      decide
  · intro push h1
    rw [hunf, retryLoop_ok push 3 2 1 h1]
  · intro push e1 h1 h2
    rw [hunf, retryLoop_step push 3 2 1 e1 (by decide) h1,
      show retryLoop push 3 2 2 = ⟨Except.ok (), 1, []⟩ from retryLoop_ok push 3 1 2 h2]
    simp [RETRY_DELAY_MS]
  · intro push e1 e2 h1 h2 h3
    rw [hunf, retryLoop_step push 3 2 1 e1 (by decide) h1,
      show retryLoop push 3 2 2 =
        ⟨(retryLoop push 3 1 3).result, (retryLoop push 3 1 3).attempts + 1,
         RETRY_DELAY_MS * 2 :: (retryLoop push 3 1 3).delays⟩
        from retryLoop_step push 3 1 2 e2 (by decide) h2,
      show retryLoop push 3 1 3 = ⟨Except.ok (), 1, []⟩ from retryLoop_ok push 3 0 3 h3]
    simp [RETRY_DELAY_MS]
  · intro push e1 e2 e3 h1 h2 h3
    rw [hunf, retryLoop_step push 3 2 1 e1 (by decide) h1,
      show retryLoop push 3 2 2 =
        ⟨(retryLoop push 3 1 3).result, (retryLoop push 3 1 3).attempts + 1,
         RETRY_DELAY_MS * 2 :: (retryLoop push 3 1 3).delays⟩
        from retryLoop_step push 3 1 2 e2 (by decide) h2,
      show retryLoop push 3 1 3 =
        ⟨Except.error ("Failed to push metrics after " ++ toString (3 : ℕ) ++ " attempts: " ++ e3), 1, []⟩
        from retryLoop_throw push 3 0 e3 h3,
      hstr e3]
    simp [RETRY_DELAY_MS]

/-- C5 witness: a push failing on attempts one and two and succeeding on
attempt three reports overall success after three attempts with waits of
1000 and 2000 milliseconds. -/
theorem C5_witness :
    pushThirdOk 1 = Except.error "boom" ∧ pushThirdOk 2 = Except.error "boom" ∧
    pushThirdOk 3 = Except.ok () ∧
    pushWithRetry pushThirdOk RETRY_ATTEMPTS = ⟨Except.ok (), 3, [1000, 2000]⟩ :=
  ⟨rfl, rfl, rfl, C5_retry_behaviour.2.2.2.1 pushThirdOk "boom" "boom" rfl rfl rfl⟩

/-- C1 counterexample: with start instant 0 and deployment instant 0 (so
t1 = t0, not t1 greater than t0) the lead time loop still produces a
sample, of value zero, because the source discards only strictly negative
values; this refutes the claim that no sample is produced when t1 <= t0. -/
theorem C1_counterexample :
    resolveStartTime noPREnv commitZero = some 0 ∧
    leadTimeSample noPREnv 0 commitZero = some (some 0) := by
  refine ⟨rfl, ?_⟩
  have hz : (((0 - 0 : ℤ)) : ℚ) / 1000 = 0 := by norm_num
  norm_num [leadTimeSample, resolveStartTime, noPREnv, commitZero, jsLtZero, jsGtB, hz,
    maxLeadTimeSeconds, MAX_LEAD_TIME_DAYS]

/-- C1 amended: for both per-commit interval computations, a resolved start
instant t0 and deployment instant t1 with t0 <= t1 produce the sample
min((t1 - t0) in seconds, ceiling) — clamped, not discarded — while t1
strictly below t0 produces no sample; consequently every produced numeric
sample is non-negative and at most its metric's ceiling (30 days for lead
time, 180 days for cycle time). -/
theorem C1_amended :
    (∀ (env : LeadEnv) (c : Commit) (t0 t1 : ℤ), resolveStartTime env c = some t0 →
      (t0 ≤ t1 → leadTimeSample env t1 c =
          some (some (min (((t1 - t0 : ℤ) : ℚ) / 1000) maxLeadTimeSeconds))) ∧
      (t1 < t0 → leadTimeSample env t1 c = none)) ∧
    (∀ (getTask : String → Option TrackerTask) (c : Commit) (tid : String)
        (task : TrackerTask) (t0 t1 : ℤ),
      scanTask c.message.data = some tid → getTask tid = some task → task.created = some t0 →
      (t0 ≤ t1 → cycleTimeSample getTask t1 c =
          some (min (((t1 - t0 : ℤ) : ℚ) / 1000) maxCycleTimeSeconds)) ∧
      (t1 < t0 → cycleTimeSample getTask t1 c = none)) ∧
    (∀ (env : LeadEnv) (t1 : ℤ) (c : Commit) (v : ℚ),
      leadTimeSample env t1 c = some (some v) → 0 ≤ v ∧ v ≤ maxLeadTimeSeconds) ∧
    (∀ (getTask : String → Option TrackerTask) (t1 : ℤ) (c : Commit) (v : ℚ),
      cycleTimeSample getTask t1 c = some v → 0 ≤ v ∧ v ≤ maxCycleTimeSeconds) := by
  have hmaxLead : (0 : ℚ) ≤ maxLeadTimeSeconds := by
    norm_num [maxLeadTimeSeconds, MAX_LEAD_TIME_DAYS]
  have hmaxCycle : (0 : ℚ) ≤ maxCycleTimeSeconds := by
    norm_num [maxCycleTimeSeconds, MAX_CYCLE_TIME_DAYS]
  have hLead : ∀ (env : LeadEnv) (c : Commit) (t0 t1 : ℤ), resolveStartTime env c = some t0 →
      (t0 ≤ t1 → leadTimeSample env t1 c =
          some (some (min (((t1 - t0 : ℤ) : ℚ) / 1000) maxLeadTimeSeconds))) ∧
      (t1 < t0 → leadTimeSample env t1 c = none) := by
    intro env c t0 t1 h
    constructor
    · intro hle
      have hs : (0 : ℚ) ≤ ((t1 : ℚ) - (t0 : ℚ)) / 1000 := by
        apply div_nonneg _ (by norm_num)
        rw [sub_nonneg]
        exact_mod_cast hle
      simp only [leadTimeSample, h, jsLtZero, jsGtB, Int.cast_sub]
      rw [if_neg (by simpa using not_lt.mpr hs)]
      by_cases hgt : maxLeadTimeSeconds < ((t1 : ℚ) - (t0 : ℚ)) / 1000
      · rw [if_pos (by simpa using hgt), min_eq_right (le_of_lt hgt)]
      · rw [if_neg (by simpa using hgt), min_eq_left (not_lt.mp hgt)]
    · intro hlt
      have hs : ((t1 : ℚ) - (t0 : ℚ)) / 1000 < 0 := by
        apply div_neg_of_neg_of_pos _ (by norm_num)
        rw [sub_neg]
        exact_mod_cast hlt
      simp only [leadTimeSample, h, jsLtZero, Int.cast_sub]
      rw [if_pos (by simpa using hs)]
  have hCycle : ∀ (getTask : String → Option TrackerTask) (c : Commit) (tid : String)
      (task : TrackerTask) (t0 t1 : ℤ),
      scanTask c.message.data = some tid → getTask tid = some task → task.created = some t0 →
      (t0 ≤ t1 → cycleTimeSample getTask t1 c =
          some (min (((t1 - t0 : ℤ) : ℚ) / 1000) maxCycleTimeSeconds)) ∧
      (t1 < t0 → cycleTimeSample getTask t1 c = none) := by
    intro getTask c tid task t0 t1 hscan hget hcreated
    constructor
    · intro hle
      have hs : (0 : ℚ) ≤ ((t1 : ℚ) - (t0 : ℚ)) / 1000 := by
        apply div_nonneg _ (by norm_num)
        rw [sub_nonneg]
        exact_mod_cast hle
      simp only [cycleTimeSample, hscan, hget, hcreated, Int.cast_sub]
      rw [if_neg (not_lt.mpr hs)]
      by_cases hgt : ((t1 : ℚ) - (t0 : ℚ)) / 1000 > maxCycleTimeSeconds
      · rw [if_pos hgt, min_eq_right (le_of_lt hgt)]
      · rw [if_neg hgt, min_eq_left (not_lt.mp hgt)]
    · intro hlt
      have hs : ((t1 : ℚ) - (t0 : ℚ)) / 1000 < 0 := by
        apply div_neg_of_neg_of_pos _ (by norm_num)
        rw [sub_neg]
        exact_mod_cast hlt
      simp only [cycleTimeSample, hscan, hget, hcreated, Int.cast_sub]
      rw [if_pos hs]
  refine ⟨hLead, hCycle, ?_, ?_⟩
  · intro env t1 c v hv
    rcases hr : resolveStartTime env c with _ | t0
    · rw [show leadTimeSample env t1 c = some none by
        simp [leadTimeSample, hr, jsLtZero, jsGtB]] at hv
      simp at hv
    · rcases le_or_lt t0 t1 with hle | hlt
      · rw [(hLead env c t0 t1 hr).1 hle] at hv
        simp only [Option.some.injEq] at hv
        subst hv
        refine ⟨le_min (div_nonneg (by exact_mod_cast sub_nonneg.mpr hle) (by norm_num))
          hmaxLead, min_le_right _ _⟩
      · rw [(hLead env c t0 t1 hr).2 hlt] at hv
        simp at hv
  · intro getTask t1 c v hv
    rcases hscan : scanTask c.message.data with _ | tid
    · simp [cycleTimeSample, hscan] at hv
    · rcases hget : getTask tid with _ | task
      · simp [cycleTimeSample, hscan, hget] at hv
      · rcases hcr : task.created with _ | t0
        · simp [cycleTimeSample, hscan, hget, hcr] at hv
        · rcases le_or_lt t0 t1 with hle | hlt
          · rw [(hCycle getTask c tid task t0 t1 hscan hget hcr).1 hle] at hv
            simp only [Option.some.injEq] at hv
            subst hv
            refine ⟨le_min (div_nonneg (by exact_mod_cast sub_nonneg.mpr hle) (by norm_num))
              hmaxCycle, min_le_right _ _⟩
          · rw [(hCycle getTask c tid task t0 t1 hscan hget hcr).2 hlt] at hv
            simp at hv

/-- C1 witness: a resolved start one second before the deployment instant
produces the one-second sample through the clamping formula. -/
theorem C1_witness : leadTimeSample noPREnv 1000 commitZero = some (some 1) :=
  ((C1_amended.1 noPREnv commitZero 0 1000 rfl).1 (by norm_num)).trans
    (by norm_num [maxLeadTimeSeconds, MAX_LEAD_TIME_DAYS])

/-- Helper: any match of the Revert-whitespace-quote regex begins with
case-insensitive "revert" followed by whitespace, so the first regex of the
classifier already matches it. -/
theorem revertQuote_imp_head (cs : List Char) (h : revertQuoteMatch cs = true) :
    revertHeadMatch cs = true := by
  unfold revertQuoteMatch at h
  split at h
  · next c rest =>
    show (c = '(' || c = ':' || jsWhitespace c) = true
    rw [Bool.and_eq_true] at h
    simp [h.1]
  · exact absurd h (by simp)

/-- Helper: a message starting with the literal text Revert-space-quote
begins with case-insensitive "revert" followed by whitespace, so the first
regex of the classifier already matches it. -/
theorem litQuote_imp_head (cs : List Char) (h : "Revert \"".data.isPrefixOf cs = true) :
    revertHeadMatch cs = true := by
  rw [List.isPrefixOf_iff_prefix] at h
  obtain ⟨rest, rfl⟩ := h
  show ((' ' : Char) = '(' || (' ' : Char) = ':' || jsWhitespace ' ') = true
  decide

/-- C3: the code classifier agrees with the four documented patterns on
every message (the only wording difference, the literal Revert-quote
pattern against the regex allowing a whitespace run, is absorbed by the
head pattern); a null message and the empty message yield false; the word
"revert" inside "reverted" does not fire the classifier, while the
standard git revert format does. -/
theorem C3_revert_patterns :
    (∀ m : String, isRevertCommit (some m) = spec_isRevertCommit m) ∧
    isRevertCommit none = false ∧
    isRevertCommit (some "") = false ∧
    isRevertCommit (some "reverted to old API") = false ∧
    isRevertCommit (some "Revert \"feat: x\"") = true ∧
    isRevertCommit (some "revert(TECH-123): undo") = true ∧
    isRevertCommit (some "Rollback deploy") = true ∧
    isRevertCommit (some "please revert commit abc123") = true := by
  refine ⟨?_, rfl, rfl, by decide, by decide, by decide, by decide, by decide⟩
  intro m
  by_cases hm : m = ""
  · subst hm
    rfl
  · simp only [isRevertCommit, spec_isRevertCommit, if_neg hm]
    cases hA : revertHeadMatch m.data
    · cases hB : revertQuoteMatch m.data
      · cases hB' : "Revert \"".data.isPrefixOf m.data
        · simp [hA, hB, hB']
        · exact absurd (litQuote_imp_head m.data hB') (by simp [hA])
      · exact absurd (revertQuote_imp_head m.data hB) (by simp [hA])
    · simp [hA]

/-- Helper: the revert arm of extractIncidentType holds exactly when the
message is a revert, whatever the ref (the ref only feeds the hotfix arm). -/
theorem extract_revert_decide (m : Option String) (r : String) :
    decide (extractIncidentType m r = some "revert") = isRevertCommit m := by
  unfold extractIncidentType
  cases hR : isRevertCommit m
  · cases hH : isHotfixDeployment r <;>
      simp [hR, hH, show ("hotfix" : String) ≠ "revert" from by decide]
  · simp [hR]

/-- Helper: the hotfix probe with an empty message holds exactly when the
ref is a hotfix ref. -/
theorem extract_hotfix_iff (r : String) :
    extractIncidentType (some "") r = some "hotfix" ↔ isHotfixDeployment r = true := by
  unfold extractIncidentType
  rw [show isRevertCommit (some "") = false from rfl]
  cases hH : isHotfixDeployment r <;> simp [hH]

/-- Helper: folding the JS two-argument minimum over genuine numbers is the
integer minimum, cast. -/
theorem jsMinFold (t : ℤ) (ts : List ℤ) :
    (ts.map (fun x : ℤ => (some ((x : ℚ)) : JSNum))).foldl jsMin2 (some ((t : ℚ))) =
      some (((ts.foldl min t : ℤ) : ℚ)) := by
  induction ts generalizing t with
  | nil => rfl
  | cons a l ih =>
    simp only [List.map_cons, List.foldl_cons]
    rw [show jsMin2 (some ((t : ℚ))) (some ((a : ℚ))) = some (((min t a : ℤ) : ℚ)) by
      simp [jsMin2, Int.cast_min]]
    exact ih (min t a)

/-- Helper: the incident start of calculateMTTR over commits that all carry
a timestamp is the earliest of those timestamps. -/
theorem jsMinList_timestamps (c : Commit) (cs : List Commit) (t : ℤ) (ts : List ℤ)
    (h : (c :: cs).map Commit.timestamp = (t :: ts).map some) :
    jsMinList ((c :: cs).map (fun x => jsDateOfTs x.timestamp)) =
      some (((ts.foldl min t : ℤ) : ℚ)) := by
  have hmap : (c :: cs).map (fun x => jsDateOfTs x.timestamp)
      = (t :: ts).map (fun x : ℤ => (some ((x : ℚ)) : JSNum)) := by
    calc (c :: cs).map (fun x => jsDateOfTs x.timestamp)
        = ((c :: cs).map Commit.timestamp).map jsDateOfTs := by
          rw [List.map_map]
          rfl
      _ = ((t :: ts).map some).map jsDateOfTs := by rw [h]
      _ = (t :: ts).map (fun x : ℤ => (some ((x : ℚ)) : JSNum)) := by
          simp [List.map_map, Function.comp, jsDateOfTs]
  rw [hmap]
  exact jsMinFold t ts

/-- C2: for commits that all carry timestamps, calculateMTTR returns the
deployment instant minus the earliest commit timestamp, in seconds, exactly
when that duration is strictly positive and some commit is a revert (a
message-only check) or the ref is a hotfix ref (a ref-only check), and null
otherwise; whenever a sample is returned, the incident type tag attached at
the call site is revert when a revert commit is present and hotfix otherwise. -/
theorem C2_mttr :
    (∀ (now : ℤ) (ref : String) (c : Commit) (cs : List Commit) (t : ℤ) (ts : List ℤ),
      (c :: cs).map Commit.timestamp = (t :: ts).map some →
      calculateMTTR now (c :: cs) ref =
        (if 0 < ((now - ts.foldl min t : ℤ) : ℚ) / 1000 ∧
            ((c :: cs).any (fun x => isRevertCommit (some x.message)) = true ∨
              isHotfixDeployment ref = true) then
          some (some (((now - ts.foldl min t : ℤ) : ℚ) / 1000))
        else none)) ∧
    (∀ (now : ℤ) (commits : List Commit) (ref : String) (v : JSNum),
      calculateMTTR now commits ref = some v →
      incidentTypeTag commits ref =
        (if commits.any (fun x => isRevertCommit (some x.message)) then "revert" else "hotfix")) := by
  constructor
  · intro now ref c cs t ts h
    simp only [calculateMTTR, jsMinList_timestamps c cs t ts h]
    have hc : ((now : ℚ) - (((ts.foldl min t : ℤ)) : ℚ)) / 1000 =
        ((now - ts.foldl min t : ℤ) : ℚ) / 1000 := by
      push_cast
      ring
    rw [hc]
    simp only [extract_revert_decide]
    by_cases hpos : 0 < ((now - ts.foldl min t : ℤ) : ℚ) / 1000
    · rw [show jsLeZero (some (((now - ts.foldl min t : ℤ) : ℚ) / 1000)) = false from
        decide_eq_false (not_le.mpr hpos)]
      rw [if_neg (by simp)]
      by_cases hrev : (c :: cs).any (fun x => isRevertCommit (some x.message)) = true
      · rw [if_pos hrev, if_pos ⟨hpos, Or.inl hrev⟩]
      · rw [if_neg hrev]
        by_cases hhf : isHotfixDeployment ref = true
        · rw [if_pos ((extract_hotfix_iff ref).mpr hhf), if_pos ⟨hpos, Or.inr hhf⟩]
        · rw [if_neg (fun hx => hhf ((extract_hotfix_iff ref).mp hx)), if_neg (by
            rintro ⟨-, hor | hor⟩
            · exact hrev hor
            · exact hhf hor)]
    · rw [show jsLeZero (some (((now - ts.foldl min t : ℤ) : ℚ) / 1000)) = true from
        decide_eq_true (not_lt.mp hpos)]
      rw [if_pos rfl, if_neg (by
        rintro ⟨h1, -⟩
        exact hpos h1)]
  · intro now commits ref v hv
    rcases commits with _ | ⟨c, cs⟩
    · exact absurd hv (by simp [calculateMTTR])
    · simp only [calculateMTTR] at hv
      split at hv
      · exact absurd hv (by simp)
      · split at hv
        · next hrev =>
          simp only [incidentTypeTag, if_pos hrev]
          simp only [extract_revert_decide] at hrev
          rw [if_pos hrev]
        · split at hv
          · next hrev hhf =>
            simp only [incidentTypeTag, if_neg hrev, if_pos hhf]
            simp only [extract_revert_decide] at hrev
            rw [if_neg hrev]
          · exact absurd hv (by simp)

/-- C2 witness: a single revert commit half an hour before the deployment
instant yields a recovery sample of 1800 seconds. -/
theorem C2_witness : calculateMTTR 1800000 [commitRevert] "refs/heads/main" = some (some 1800) := by
  have h := C2_mttr.1 1800000 "refs/heads/main" commitRevert [] 0 [] rfl
  rw [h, if_pos ⟨by norm_num, Or.inl (by decide)⟩]
  norm_num

/-- C7 counterexample: with an empty commit list recordAndPushMetrics
returns before building any metric, so no payload is pushed and the
deployment marker is not included in any pushed payload, refuting the
claim for the empty list. -/
theorem C7_counterexample :
    cfgEmpty.commits = [] ∧ recordAndPushMetrics (fun _ => 0) cfgEmpty = none := ⟨rfl, rfl⟩

/-- C7 amended: for every configuration with a non-empty commit list, the
pushed payload exists and its first line is the deployment marker with
field count one and the common tag set. -/
theorem C7_amended : ∀ (clock : ℕ → ℤ) (cfg : MetricsConfig), cfg.commits ≠ [] →
    ∃ rest, recordAndPushMetrics clock cfg =
      some (createLineProtocol "deployment" (commonTags cfg) [("count", FieldValue.num 1)]
        (clock 0 * 1000000) :: rest) := by
  intro clock cfg h
  unfold recordAndPushMetrics
  rw [if_neg (by simp [List.isEmpty_eq_false.mpr h])]
  exact ⟨_, rfl⟩

/-- C7 witness: the deployment marker leads the payload of a concrete
one-commit configuration. -/
theorem C7_witness :
    cfgRevert.commits ≠ [] ∧
    ∃ rest, recordAndPushMetrics (fun _ => 0) cfgRevert =
      some (createLineProtocol "deployment" (commonTags cfgRevert) [("count", FieldValue.num 1)]
        ((0 : ℤ) * 1000000) :: rest) :=
  ⟨by simp [cfgRevert], C7_amended (fun _ => 0) cfgRevert (by simp [cfgRevert])⟩

/-- Helper: the recovery time of a single rollback commit at instant zero,
for a strictly later deployment instant. -/
theorem calculateMTTR_rollback (now : ℤ) (h : 0 < now) :
    calculateMTTR now [commitRollback] "refs/heads/main" = some (some ((now : ℚ) / 1000)) := by
  simp only [calculateMTTR,
    show jsMinList ([commitRollback].map (fun c => jsDateOfTs c.timestamp)) = some (0 : ℚ) from rfl]
  rw [show ((now : ℚ) - 0) / 1000 = (now : ℚ) / 1000 from by ring]
  rw [show jsLeZero (some ((now : ℚ) / 1000)) = false from
    decide_eq_false (not_le.mpr (div_pos (by exact_mod_cast h) (by norm_num)))]
  rw [if_neg (by simp), if_pos (by decide)]

/-- Helper: the recovery time of a single rollback commit at instant zero
is null when the deployment instant is also zero. -/
theorem calculateMTTR_rollback_zero :
    calculateMTTR 0 [commitRollback] "refs/heads/main" = none := by
  simp only [calculateMTTR,
    show jsMinList ([commitRollback].map (fun c => jsDateOfTs c.timestamp)) = some (0 : ℚ) from rfl]
  rw [show (((0 : ℤ) : ℚ) - 0) / 1000 = 0 from by norm_num]
  rw [show jsLeZero (some (0 : ℚ)) = true from decide_eq_true (le_refl (0 : ℚ)), if_pos rfl]

/-- C8: a commit whose timestamp field is absent becomes an Invalid Date
whose numeric value NaN passes both the negative and the ceiling guard, so
the lead time loop pushes NaN into the sample list, the aggregated mean is
NaN rather than null, and the NaN reaches the pushed payload as
seconds=NaN; likewise Math.min over the commit timestamps turns the MTTR
start instant into NaN, so an incident-bearing deployment yields a NaN
recovery sample where the same deployment without the timestamp-less
commit yields a real one. This is evaluated at the failing inputs of the
code_bug verdict. -/
theorem C8_missing_timestamp_bug :
    calculateLeadTimes noPREnv true 1000 [commitNoTs] = some none ∧
    recordAndPushMetrics (fun _ => 1000) cfgNoTs =
      some ["deployment,project=p,repository=r,environment=production,has_task=no count=1i 1000000000",
            "lead_time,project=p,repository=r,environment=production,has_task=no seconds=NaN 1000000000"] ∧
    calculateMTTR 1000000 [commitRollback, commitRollbackNoTs] "refs/heads/main" = some none ∧
    calculateMTTR 1000000 [commitRollback] "refs/heads/main" = some (some 1000) := by
  refine ⟨rfl, by decide, by decide, ?_⟩
  rw [calculateMTTR_rollback 1000000 (by norm_num)]
  norm_num

/-- Helper: every line protocol string ends with its timestamp. -/
theorem lineEndsWithTimestamp (m : String) (tg : List (String × String))
    (f : List (String × FieldValue)) (ts : ℤ) :
    (toString ts).data.isSuffixOf (createLineProtocol m tg f ts).data = true := by
  rw [List.isSuffixOf_iff_suffix]
  unfold createLineProtocol
  rw [String.data_append]
  exact List.suffix_append _ _

/-- C9 amended: recordAndPushMetrics does not capture the clock once; it
reads it up to four times (indices 0 to 3): once for the nanosecond
timestamp of every encoded line — all emitted lines end in that one
timestamp — and once at the start of each calculator, so different
calculators may observe different instants while each uses a single
instant of its own. -/
theorem C9_amended :
    (∀ (clock : ℕ → ℤ) (cfg : MetricsConfig),
      recordAndPushMetrics clock cfg = recordAndPushMetrics (fun i => clock (min i 3)) cfg) ∧
    (∀ (clock : ℕ → ℤ) (cfg : MetricsConfig) (out : List String),
      recordAndPushMetrics clock cfg = some out →
      ∀ line ∈ out, (toString (clock 0 * 1000000)).data.isSuffixOf line.data = true) := by
  constructor
  · intro clock cfg
    rfl
  · intro clock cfg out h line hmem
    unfold recordAndPushMetrics at h
    cases hE : cfg.commits.isEmpty
    · rw [if_neg (by simp [hE])] at h
      replace h := Option.some.inj h
      subst h
      rcases List.mem_cons.mp hmem with rfl | hmem2
      · exact lineEndsWithTimestamp _ _ _ _
      · rcases List.mem_append.mp hmem2 with hmem3 | hmttr
        · rcases List.mem_append.mp hmem3 with hmem4 | hfail
          · rcases List.mem_append.mp hmem4 with hlead | hcycle
            · rcases hL : calculateLeadTimes cfg.leadEnv cfg.githubToken (clock 1) cfg.commits with
                _ | v
              · rw [hL] at hlead
                simp at hlead
              · rw [hL] at hlead
                simp only [List.mem_singleton] at hlead
                subst hlead
                exact lineEndsWithTimestamp _ _ _ _
            · rcases hC : calculateCycleTimes cfg.yogileInstance (clock 2) cfg.commits with
                _ | v
              · rw [hC] at hcycle
                simp at hcycle
              · rw [hC] at hcycle
                simp only [List.mem_singleton] at hcycle
                subst hcycle
                exact lineEndsWithTimestamp _ _ _ _
          · cases hF : detectFailures cfg.commits cfg.ref
            · rw [hF] at hfail
              simp at hfail
            · rw [hF] at hfail
              simp only [if_true, List.mem_singleton] at hfail
              subst hfail
              exact lineEndsWithTimestamp _ _ _ _
        · rcases hM : calculateMTTR (clock 3) cfg.commits cfg.ref with _ | v
          · rw [hM] at hmttr
            simp at hmttr
          · rw [hM] at hmttr
            simp only [List.mem_singleton] at hmttr
            subst hmttr
            exact lineEndsWithTimestamp _ _ _ _
    · rw [if_pos (by simp [hE])] at h
      exact absurd h (by simp)

/-- C9 counterexample: under a clock that advances between reads, the
pushed payload differs from the payload computed when every read returns
the first read's instant, so the deployment instant is not captured once
and shared: here the advancing clock yields a positive recovery time and
an mttr line while the first instant alone yields none. -/
theorem C9_counterexample :
    recordAndPushMetrics tickingClock cfgRevertNoTok ≠
      recordAndPushMetrics (fun _ => tickingClock 0) cfgRevertNoTok := by
  have h1 : recordAndPushMetrics tickingClock cfgRevertNoTok = some
      [createLineProtocol "deployment" (commonTags cfgRevertNoTok) [("count", FieldValue.num 1)]
        (tickingClock 0 * 1000000),
       createLineProtocol "deployment_failure" (commonTags cfgRevertNoTok)
        [("count", FieldValue.num 1)] (tickingClock 0 * 1000000),
       createLineProtocol "mttr"
        (commonTags cfgRevertNoTok ++
          [("incident_type", incidentTypeTag cfgRevertNoTok.commits cfgRevertNoTok.ref)])
        [("seconds", jsNumToField (some 3000))] (tickingClock 0 * 1000000)] := by
    have hm : calculateMTTR (tickingClock 3) cfgRevertNoTok.commits cfgRevertNoTok.ref =
        some (some 3000) := by
      have := calculateMTTR_rollback 3000000 (by norm_num)
      rw [show calculateMTTR (tickingClock 3) cfgRevertNoTok.commits cfgRevertNoTok.ref =
        calculateMTTR 3000000 [commitRollback] "refs/heads/main" from rfl, this]
      norm_num
    simp only [recordAndPushMetrics,
      show cfgRevertNoTok.commits.isEmpty = false from rfl,
      show calculateLeadTimes cfgRevertNoTok.leadEnv cfgRevertNoTok.githubToken
        (tickingClock 1) cfgRevertNoTok.commits = none from rfl,
      show calculateCycleTimes cfgRevertNoTok.yogileInstance (tickingClock 2)
        cfgRevertNoTok.commits = none from rfl,
      show detectFailures cfgRevertNoTok.commits cfgRevertNoTok.ref = true from by decide,
      hm]
    simp
  have h2 : recordAndPushMetrics (fun _ => tickingClock 0) cfgRevertNoTok = some
      [createLineProtocol "deployment" (commonTags cfgRevertNoTok) [("count", FieldValue.num 1)]
        (tickingClock 0 * 1000000),
       createLineProtocol "deployment_failure" (commonTags cfgRevertNoTok)
        [("count", FieldValue.num 1)] (tickingClock 0 * 1000000)] := by
    have hm : calculateMTTR ((fun _ : ℕ => tickingClock 0) 3) cfgRevertNoTok.commits
        cfgRevertNoTok.ref = none := calculateMTTR_rollback_zero
    simp only [recordAndPushMetrics,
      show cfgRevertNoTok.commits.isEmpty = false from rfl,
      show calculateLeadTimes cfgRevertNoTok.leadEnv cfgRevertNoTok.githubToken
        ((fun _ : ℕ => tickingClock 0) 1) cfgRevertNoTok.commits = none from rfl,
      show calculateCycleTimes cfgRevertNoTok.yogileInstance ((fun _ : ℕ => tickingClock 0) 2)
        cfgRevertNoTok.commits = none from rfl,
      show detectFailures cfgRevertNoTok.commits cfgRevertNoTok.ref = true from by decide,
      hm]
    simp
  rw [h1, h2]
  intro hcontra
  simp only [Option.some.injEq] at hcontra
  exact absurd (congrArg List.length hcontra) (by simp)

/-- C9 witness: every line of a concrete pushed payload ends with the one
nanosecond timestamp derived from the first clock read. -/
theorem C9_witness :
    (toString ((0 : ℤ) * 1000000)).data.isSuffixOf outNoTs.headI.data = true :=
  C9_amended.2 (fun _ => 0) cfgNoTs outNoTs rfl outNoTs.headI (by decide)
